import Mathlib

/-!
Verification of the license-verification and configuration-resolution
subsystem of the tangram CLI (src/cli/app.rs).

The Rust code is shallowly embedded: bytes are `Nat` (0..255), paths and
strings are `String`, fallible operations return `Except AppError`.
External library primitives that the code calls (the sha2 digest, the
rsa PKCS#1 v1.5 signature check, std parsers for IP addresses and URLs,
the filesystem and the environment) are passed in as explicit oracle
parameters collected in `Ext`, so every claim is stated for all behaviours
of those primitives; the base64 decoder is modelled concretely because
several claims depend on its alphabet and error behaviour.
-/

set_option autoImplicit false

namespace Tangram

/-- Error type covering every failure path of `app` and its helpers in
src/cli/app.rs.  `panicked` models a Rust panic (an `unwrap()` on a failed
result), which aborts the process without returning an error value. -/
inductive AppError where
  | ioError (msg : String)
  | panicked
  | invalidLicense
  | decodeError
  | signatureError
  | licenseRequired
  | verifyFailed
  | parseError (what : String)
  deriving DecidableEq

/-- The 6-bit value of one byte of the standard base64 alphabet
(A-Z, a-z, 0-9, +, /), as used by the base64 crate's decoder; `none` for
any byte outside the alphabet, including the pad byte 61. -/
def b64Val (b : Nat) : Option Nat :=
  if 65 ≤ b ∧ b ≤ 90 then some (b - 65)
  else if 97 ≤ b ∧ b ≤ 122 then some (b - 71)
  else if 48 ≤ b ∧ b ≤ 57 then some (b + 4)
  else if b = 43 then some 62
  else if b = 47 then some 63
  else none

/-- Decode a full 4-symbol base64 chunk (no padding allowed) into 3 bytes.
Models the base64 crate's handling of non-final chunks, where the pad
byte is an invalid byte. -/
def b64Chunk4 (a b c d : Nat) : Option (List Nat) :=
  match b64Val a, b64Val b, b64Val c, b64Val d with
  | some va, some vb, some vc, some vd =>
    some [va * 4 + vb / 16, vb % 16 * 16 + vc / 4, vc % 4 * 64 + vd]
  | _, _, _, _ => none

/-- Decode the final 4-symbol chunk, where one or two trailing pad
bytes (61) are allowed; trailing bits of the last data symbol must be
zero (the base64 crate's strict default). -/
def b64Final (a b c d : Nat) : Option (List Nat) :=
  if c = 61 then
    if d = 61 then
      match b64Val a, b64Val b with
      | some va, some vb =>
        if vb % 16 = 0 then some [va * 4 + vb / 16] else none
      | _, _ => none
    else none
  else if d = 61 then
    match b64Val a, b64Val b, b64Val c with
    | some va, some vb, some vc =>
      if vc % 4 = 0 then some [va * 4 + vb / 16, vb % 16 * 16 + vc / 4]
      else none
    | _, _, _ => none
  else b64Chunk4 a b c d

/-- Model of `base64::decode` (standard alphabet, strict: invalid bytes
such as whitespace are never skipped, padding is accepted only at the
end, a leftover length of 1 symbol is an invalid length, and unpadded
final chunks of 2 or 3 symbols are accepted). -/
def b64Decode : List Nat → Option (List Nat)
  | [] => some []
  | [_] => none
  | [a, b] =>
    match b64Val a, b64Val b with
    | some va, some vb =>
      if vb % 16 = 0 then some [va * 4 + vb / 16] else none
    | _, _ => none
  | [a, b, c] =>
    match b64Val a, b64Val b, b64Val c with
    | some va, some vb, some vc =>
      if vc % 4 = 0 then some [va * 4 + vb / 16, vb % 16 * 16 + vc / 4]
      else none
    | _, _, _ => none
  | [a, b, c, d] => b64Final a b c d
  | a :: b :: c :: d :: e :: rest =>
    match b64Chunk4 a b c d, b64Decode (e :: rest) with
    | some bs, some bs2 => some (bs ++ bs2)
    | _, _ => none

/-- Model of the Rust slice iterator `license_data.split(|byte| *byte == b':')`
(src/cli/app.rs line 244), collected into a list: the list of maximal
segments between occurrences of the byte 58; always nonempty, and an
empty input yields one empty segment. -/
def splitColon : List Nat → List (List Nat)
  | [] => [[]]
  | b :: rest =>
    if b = 58 then [] :: splitColon rest
    else
      match splitColon rest with
      | [] => [[b]]
      | s :: ss => (b :: s) :: ss

/-- Inverse of `splitColon`: interleave the segments with the byte 58. -/
def joinColon : List (List Nat) → List Nat
  | [] => []
  | [s] => s
  | s :: ss => s ++ 58 :: joinColon ss

/-- Model of `verify_license` (src/cli/app.rs lines 221-258) on the raw
bytes of the license artifact.  The `std::fs::read` of the path is
factored out to the caller (`licenseVerifiedOf`), and the parsing of the
embedded constant public key (lines 222-242), which depends on no input,
is elided.  `sha256` models the sha2 digest and `rsaVerify` models
`RSAPublicKey::verify` with PKCS#1 v1.5 padding against the embedded
key, taking the digest and the decoded signature.  Exactly as in the
source: the first `sections.next()` (never `none`), then base64-decode of
the payload segment, then the second `sections.next()` (`none` exactly
when the artifact has no colon), then base64-decode of the signature
segment, then the signature check; any further segments are never
requested from the iterator.  The only successful result is `.ok true`. -/
def verify_license (sha256 : List Nat → List Nat)
    (rsaVerify : List Nat → List Nat → Bool)
    (license_data : List Nat) : Except AppError Bool :=
  match splitColon license_data with
  | [] => .error AppError.invalidLicense
  | [s0] =>
    match b64Decode s0 with
    | none => .error AppError.decodeError
    | some _ => .error AppError.invalidLicense
  | s0 :: s1 :: _ =>
    match b64Decode s0 with
    | none => .error AppError.decodeError
    | some payload =>
      match b64Decode s1 with
      | none => .error AppError.decodeError
      | some signature =>
        if rsaVerify (sha256 payload) signature then .ok true
        else .error AppError.signatureError

/-- The artifact truncated to its first two colon-separated segments
(everything from the second colon on is dropped); the identity when the
artifact has fewer than two colons. -/
def truncTwo (l : List Nat) : List Nat :=
  match splitColon l with
  | s0 :: s1 :: _ :: _ => s0 ++ 58 :: s1
  | _ => l

/-- `splitColon` always yields at least one segment, as Rust's slice
`split` iterator always yields at least one subslice. -/
theorem splitColon_ne_nil (l : List Nat) : splitColon l ≠ [] := by
  cases l with
  | nil => simp [splitColon]
  | cons b rest =>
    simp only [splitColon]
    split
    · simp
    · split <;> simp

/-- No segment produced by `splitColon` contains the delimiter byte. -/
theorem mem_splitColon_no_colon : ∀ (l s : List Nat), s ∈ splitColon l → 58 ∉ s
  | [], s, hs => by
    simp [splitColon] at hs; subst hs; simp
  | b :: rest, s, hs => by
    by_cases hb : b = 58
    · simp [splitColon, hb] at hs
      rcases hs with h | h
      · subst h; simp
      · exact mem_splitColon_no_colon rest s h
    · simp only [splitColon, if_neg hb] at hs
      cases hsp : splitColon rest with
      | nil => exact absurd hsp (splitColon_ne_nil rest)
      | cons t ts =>
        rw [hsp] at hs
        simp only [List.mem_cons] at hs
        rcases hs with h | h
        · subst h
          intro hmem
          simp only [List.mem_cons] at hmem
          rcases hmem with h58 | h58
          · exact hb h58.symm
          · exact mem_splitColon_no_colon rest t
              (by rw [hsp]; exact List.mem_cons_self t ts) h58
        · exact mem_splitColon_no_colon rest s
            (by rw [hsp]; exact List.mem_cons_of_mem t h)

/-- The number of segments is one more than the number of delimiter
bytes in the input. -/
theorem splitColon_length (l : List Nat) :
    (splitColon l).length = l.count 58 + 1 := by
  induction l with
  | nil => simp [splitColon]
  | cons b rest ih =>
    by_cases hb : b = 58
    · subst hb
      simp [splitColon, List.count_cons, ih]
    · simp only [splitColon, if_neg hb]
      cases hsp : splitColon rest with
      | nil => exact absurd hsp (splitColon_ne_nil rest)
      | cons t ts =>
        rw [hsp] at ih
        simp only [List.length_cons] at ih ⊢
        simp [List.count_cons, hb, ih]

/-- Splitting a delimiter-free list yields that list as the single
segment. -/
theorem splitColon_no_colon (a : List Nat) (ha : 58 ∉ a) : splitColon a = [a] := by
  induction a with
  | nil => simp [splitColon]
  | cons b rest ih =>
    simp only [List.mem_cons, not_or] at ha
    have hb : b ≠ 58 := fun h => ha.1 h.symm
    simp only [splitColon, if_neg hb, ih ha.2]

/-- Splitting peels off a delimiter-free prefix before the first
delimiter. -/
theorem splitColon_append_colon (a r : List Nat) (ha : 58 ∉ a) :
    splitColon (a ++ 58 :: r) = a :: splitColon r := by
  induction a with
  | nil => simp [splitColon]
  | cons b rest ih =>
    simp only [List.mem_cons, not_or] at ha
    have hb : b ≠ 58 := fun h => ha.1 h.symm
    show splitColon (b :: (rest ++ 58 :: r)) = (b :: rest) :: splitColon r
    simp only [splitColon, if_neg hb]
    rw [ih ha.2]

/-- Rejoining the segments with the delimiter byte recovers the input. -/
theorem joinColon_splitColon (l : List Nat) : joinColon (splitColon l) = l := by
  induction l with
  | nil => simp [splitColon, joinColon]
  | cons b rest ih =>
    by_cases hb : b = 58
    · subst hb
      simp only [splitColon, if_pos rfl]
      cases hsp : splitColon rest with
      | nil => exact absurd hsp (splitColon_ne_nil rest)
      | cons t ts =>
        rw [hsp] at ih
        simp [joinColon, ih]
    · simp only [splitColon, if_neg hb]
      cases hsp : splitColon rest with
      | nil => exact absurd hsp (splitColon_ne_nil rest)
      | cons t ts =>
        rw [hsp] at ih
        cases ts with
        | nil => simp_all [joinColon]
        | cons t2 ts2 => simp_all [joinColon]

/-- A full 4-symbol chunk fails to decode as soon as any of its four
bytes is outside the base64 alphabet. -/
theorem b64Chunk4_eq_none {a b c d : Nat}
    (h : b64Val a = none ∨ b64Val b = none ∨ b64Val c = none ∨ b64Val d = none) :
    b64Chunk4 a b c d = none := by
  unfold b64Chunk4
  cases ha : b64Val a <;> cases hb : b64Val b <;> cases hc : b64Val c <;>
    cases hd : b64Val d <;> simp_all

/-- Strictness of the modelled base64 decoder: any byte that is neither
in the base64 alphabet nor the pad byte 61 (in particular whitespace
such as a newline) makes the whole decode fail, wherever it occurs. -/
theorem b64Decode_eq_none_of_invalid (x : Nat) (hv : b64Val x = none)
    (h61 : x ≠ 61) : ∀ (l : List Nat), x ∈ l → b64Decode l = none
  | [], hx => absurd hx (List.not_mem_nil x)
  | [_], _ => rfl
  | [a, b], hx => by
    have hd : b64Val a = none ∨ b64Val b = none := by
      have hx' : x = a ∨ x = b := by simpa using hx
      rcases hx' with h | h
      · exact Or.inl (by rw [← h]; exact hv)
      · exact Or.inr (by rw [← h]; exact hv)
    unfold b64Decode
    cases h1 : b64Val a <;> cases h2 : b64Val b <;> simp_all
  | [a, b, c], hx => by
    have hd : b64Val a = none ∨ b64Val b = none ∨ b64Val c = none := by
      have hx' : x = a ∨ x = b ∨ x = c := by simpa using hx
      rcases hx' with h | h | h
      · exact Or.inl (by rw [← h]; exact hv)
      · exact Or.inr (Or.inl (by rw [← h]; exact hv))
      · exact Or.inr (Or.inr (by rw [← h]; exact hv))
    unfold b64Decode
    cases h1 : b64Val a <;> cases h2 : b64Val b <;> cases h3 : b64Val c <;>
      simp_all
  | [a, b, c, d], hx => by
    have hx' : x = a ∨ x = b ∨ x = c ∨ x = d := by simpa using hx
    unfold b64Decode b64Final
    rcases hx' with h | h | h | h
    · have ha : b64Val a = none := by rw [← h]; exact hv
      split_ifs <;>
        first
          | (exact b64Chunk4_eq_none (Or.inl ha))
          | (cases h1 : b64Val a <;> cases h2 : b64Val b <;> simp_all)
    · have hb : b64Val b = none := by rw [← h]; exact hv
      split_ifs <;>
        first
          | (exact b64Chunk4_eq_none (Or.inr (Or.inl hb)))
          | (cases h1 : b64Val a <;> cases h2 : b64Val b <;> simp_all)
    · have hc : b64Val c = none := by rw [← h]; exact hv
      have hc61 : c ≠ 61 := by rw [← h]; exact h61
      rw [if_neg hc61]
      split_ifs
      · cases h1 : b64Val a <;> cases h2 : b64Val b <;>
          cases h3 : b64Val c <;> simp_all
      · exact b64Chunk4_eq_none (Or.inr (Or.inr (Or.inl hc)))
    · have hd : b64Val d = none := by rw [← h]; exact hv
      have hd61 : d ≠ 61 := by rw [← h]; exact h61
      split_ifs <;>
        first
          | rfl
          | (exact absurd (by assumption) hd61)
          | (exact b64Chunk4_eq_none (Or.inr (Or.inr (Or.inr hd))))
  | a :: b :: c :: d :: e :: rest, hx => by
    have hx' : x = a ∨ x = b ∨ x = c ∨ x = d ∨ x ∈ e :: rest := by
      simpa using hx
    unfold b64Decode
    rcases hx' with h | h | h | h | h
    · rw [b64Chunk4_eq_none (Or.inl (by rw [← h]; exact hv))]
    · rw [b64Chunk4_eq_none (Or.inr (Or.inl (by rw [← h]; exact hv)))]
    · rw [b64Chunk4_eq_none (Or.inr (Or.inr (Or.inl (by rw [← h]; exact hv))))]
    · rw [b64Chunk4_eq_none (Or.inr (Or.inr (Or.inr (by rw [← h]; exact hv))))]
    · rw [b64Decode_eq_none_of_invalid x hv h61 (e :: rest) h]
      cases b64Chunk4 a b c d <;> simp

/-! ### Configuration data model (src/cli/app.rs lines 8-61) -/

/-- `AuthConfig` (src/cli/app.rs lines 21-24). -/
structure AuthConfig where
  enable : Bool
  deriving DecidableEq

/-- `DatabaseConfig` (src/cli/app.rs lines 26-30); the `Url` field is
modelled as the already-parsed string. -/
structure DatabaseConfig where
  max_connections : Option Nat
  url : String
  deriving DecidableEq

/-- `SmtpConfig` (src/cli/app.rs lines 32-37). -/
structure SmtpConfig where
  host : String
  password : String
  username : String
  deriving DecidableEq

/-- `LocalStorageConfig` (src/cli/app.rs lines 48-51). -/
structure LocalStorageConfig where
  path : String
  deriving DecidableEq

/-- `S3StorageConfig` (src/cli/app.rs lines 53-61). -/
structure S3StorageConfig where
  access_key : String
  secret_key : String
  endpoint : String
  bucket : String
  region : String
  cache_path : Option String
  deriving DecidableEq

/-- `StorageConfig` (src/cli/app.rs lines 39-46). -/
inductive StorageConfig where
  | localS (c : LocalStorageConfig)
  | s3 (c : S3StorageConfig)
  deriving DecidableEq

/-- `AppConfig` (src/cli/app.rs lines 8-19), the deserialized config
file.  `host` is `Option IpAddr` in the source; the address is modelled
as its canonical string form.  `license` is `Option PathBuf`. -/
structure AppConfig where
  auth : Option AuthConfig
  cookie_domain : Option String
  database : Option DatabaseConfig
  host : Option String
  license : Option String
  port : Option Nat
  smtp : Option SmtpConfig
  storage : Option StorageConfig
  url : Option String
  deriving DecidableEq

/-! ### Resolved options (tangram_app::options, as constructed at
src/cli/app.rs lines 168-177) -/

/-- `tangram_app::options::AuthOptions` — an empty marker struct; its
presence is the auth capability. -/
structure AuthOptions where
  deriving DecidableEq

/-- `tangram_app::options::LocalStorageOptions`. -/
structure LocalStorageOptions where
  path : String
  deriving DecidableEq

/-- `tangram_app::options::S3StorageOptions`. -/
structure S3StorageOptions where
  access_key : String
  secret_key : String
  endpoint : String
  bucket : String
  region : String
  cache_path : String
  deriving DecidableEq

/-- `tangram_app::options::StorageOptions`. -/
inductive StorageOptions where
  | localS (o : LocalStorageOptions)
  | s3 (o : S3StorageOptions)
  deriving DecidableEq

/-- `tangram_app::options::DatabaseOptions`. -/
structure DatabaseOptions where
  max_connections : Option Nat
  url : String
  deriving DecidableEq

/-- `tangram_app::options::SmtpOptions`. -/
structure SmtpOptions where
  host : String
  username : String
  password : String
  deriving DecidableEq

/-- `tangram_app::options::Options`, the resolved options handed to
`tangram_app::run` (src/cli/app.rs lines 168-178). -/
structure Options where
  auth : Option AuthOptions
  cookie_domain : Option String
  database : DatabaseOptions
  host : String
  port : Nat
  smtp : Option SmtpOptions
  storage : StorageOptions
  url : Option String
  deriving DecidableEq

/-- The external world of `app`: the filesystem, the environment, the
`dirs` crate, and the library primitives (std parsers, sha2, rsa),
passed as oracles so that the claims quantify over their behaviour.
`createDirAll` models `std::fs::create_dir_all` succeeding (which it
does in particular when the directory already exists); `readFile` models
`std::fs::read`, `none` meaning an io error; `envHost`/`envPort` model
`std::env::var` for HOST/PORT; `parseHost` models `IpAddr::from_str`
and `parseUrl` models `Url::parse`, returning the canonical form on
success. -/
structure Ext where
  cacheDir : Option String
  dataDir : Option String
  createDirAll : String → Bool
  readFile : String → Option (List Nat)
  envHost : Option String
  envPort : Option String
  parseHost : String → Option String
  parseUrl : String → Option String
  sha256 : List Nat → List Nat
  rsaVerify : List Nat → List Nat → Bool

/-- Model of `u16::from_str` as used for `PORT` (src/cli/app.rs line
130): an optional leading plus sign, then one or more decimal digits,
value below 2^16. -/
def parsePort (s : String) : Option Nat :=
  let cs := s.data
  let cs := match cs with
    | '+' :: rest => rest
    | _ => cs
  if cs.isEmpty then none
  else if cs.all Char.isDigit then
    let n := cs.foldl (fun acc c => acc * 10 + (c.toNat - 48)) 0
    if n < 65536 then some n else none
  else none

/-- Model of `cache_path` (src/cli/app.rs lines 183-193): resolve the
user cache directory via the `dirs` crate, join "tangram", create it;
both failure modes return an error built with `err!`. -/
def cache_path (ext : Ext) : Except AppError String :=
  match ext.cacheDir with
  | none => .error (AppError.ioError "failed to find user cache directory")
  | some d =>
    let t := d ++ "/tangram"
    if ext.createDirAll t then .ok t
    else .error (AppError.ioError "failed to create tangram cache directory")

/-- Model of `data_path` (src/cli/app.rs lines 197-207): resolve the
user data directory via the `dirs` crate, join "tangram", create it;
both failure modes return an error built with `err!`. -/
def data_path (ext : Ext) : Except AppError String :=
  match ext.dataDir with
  | none => .error (AppError.ioError "failed to find user data directory")
  | some d =>
    let t := d ++ "/tangram"
    if ext.createDirAll t then .ok t
    else .error (AppError.ioError "failed to create tangram data directory")

/-- Model of `default_database_url` (src/cli/app.rs lines 211-219).  The
source returns a bare `Url`, calling `data_path().unwrap()` and
`create_dir_all(..).unwrap()`: both failure modes are panics, modelled
as `AppError.panicked`, never an io error.  (`to_str().unwrap()` and
`Url::parse(..).unwrap()` cannot fail here: the path is valid UTF-8 by
construction in this model and the constant-shaped sqlite URL always
parses.) -/
def default_database_url (ext : Ext) : Except AppError String :=
  match data_path ext with
  | .error _ => .error AppError.panicked
  | .ok d =>
    let parent := d ++ "/db"
    if ext.createDirAll parent then .ok ("sqlite:" ++ parent ++ "/tangram.db")
    else .error AppError.panicked

/-! ### The `app` entry point (src/cli/app.rs lines 64-179), modelled as
one definition per source block, sequenced by `app`.  The parsed config
file is taken as an argument (`none` when `--config` was not given);
config read/parse failures abort before any of this runs.  The
`debug_assertions` compile-time switch is the `debug` argument. -/

/-- Lines 71-80: the auth capability requested by the config. -/
def authOf (config : Option AppConfig) : Option AuthOptions :=
  match config.bind AppConfig.auth with
  | some a => if a.enable then some ⟨⟩ else none
  | none => none

/-- Line 81. -/
def cookieDomainOf (config : Option AppConfig) : Option String :=
  config.bind AppConfig.cookie_domain

/-- Lines 82-108: storage options; an S3 config without a cache path
falls back to `cache_path().unwrap()` (a panic on failure, line 93); no
storage config falls back to local storage under `data_path()?` with
the error propagated (line 106). -/
def storageOf (ext : Ext) (config : Option AppConfig) :
    Except AppError StorageOptions :=
  match config.bind AppConfig.storage with
  | some (StorageConfig.localS c) => .ok (StorageOptions.localS ⟨c.path⟩)
  | some (StorageConfig.s3 c) =>
    match c.cache_path with
    | some p =>
      .ok (StorageOptions.s3
        ⟨c.access_key, c.secret_key, c.endpoint, c.bucket, c.region, p⟩)
    | none =>
      match cache_path ext with
      | .ok p =>
        .ok (StorageOptions.s3
          ⟨c.access_key, c.secret_key, c.endpoint, c.bucket, c.region, p⟩)
      | .error _ => .error AppError.panicked
  | none =>
    match data_path ext with
    | .ok d => .ok (StorageOptions.localS ⟨d ++ "/data"⟩)
    | .error e => .error e

/-- Lines 109-119: database options, defaulting to
`default_database_url()` (whose failures are panics). -/
def databaseOf (ext : Ext) (config : Option AppConfig) :
    Except AppError DatabaseOptions :=
  match config.bind AppConfig.database with
  | some db => .ok ⟨db.max_connections, db.url⟩
  | none =>
    match default_database_url ext with
    | .ok u => .ok ⟨none, u⟩
    | .error e => .error e

/-- Lines 120-128: the bind address; the HOST environment variable when
set (a parse failure is fatal, line 121), else the config file's host,
else 0.0.0.0. -/
def hostOf (ext : Ext) (config : Option AppConfig) : Except AppError String :=
  match ext.envHost with
  | some s =>
    match ext.parseHost s with
    | some h => .ok h
    | none => .error (AppError.parseError "HOST")
  | none =>
    match config.bind AppConfig.host with
    | some h => .ok h
    | none => .ok "0.0.0.0"

/-- Lines 129-135: the bind port; the PORT environment variable when set
(a parse failure is fatal, line 130), else the config file's port, else
8080. -/
def portOf (ext : Ext) (config : Option AppConfig) : Except AppError Nat :=
  match ext.envPort with
  | some s =>
    match parsePort s with
    | some p => .ok p
    | none => .error (AppError.parseError "PORT")
  | none =>
    match config.bind AppConfig.port with
    | some p => .ok p
    | none => .ok 8080

/-- Lines 136-142: verify the license if one was provided; the read and
any verification failure propagate as errors (`?` on line 139),
regardless of whether auth is enabled. -/
def licenseVerifiedOf (ext : Ext) (config : Option AppConfig) :
    Except AppError (Option Bool) :=
  match config.bind AppConfig.license with
  | some p =>
    match ext.readFile p with
    | none => .error (AppError.ioError "failed to read license file")
    | some data =>
      match verify_license ext.sha256 ext.rsaVerify data with
      | .ok b => .ok (some b)
      | .error e => .error e
  | none => .ok none


/-- Lines 143-153: the fail-closed gate.  Runs only when auth was
requested; a missing license is tolerated only when the compile-time
`debug_assertions` switch (`debug`) is on, an unverified license is
always fatal, a verified one passes. -/
def gate (debug : Bool) (auth : Option AuthOptions) (lv : Option Bool) :
    Except AppError Unit :=
  if auth.isSome then
    match lv with
    | none => if debug then .ok () else .error AppError.licenseRequired
    | some false => .error AppError.verifyFailed
    | some true => .ok ()
  else .ok ()

/-- Lines 154-162: smtp options from the config. -/
def smtpOf (config : Option AppConfig) : Option SmtpOptions :=
  match config.bind AppConfig.smtp with
  | some s => some ⟨s.host, s.username, s.password⟩
  | none => none

/-- Lines 163-167: the public base url, parsed when configured (a parse
failure is fatal, line 164). -/
def urlOf (ext : Ext) (config : Option AppConfig) :
    Except AppError (Option String) :=
  match config.bind AppConfig.url with
  | some u =>
    match ext.parseUrl u with
    | some u2 => .ok (some u2)
    | none => .error (AppError.parseError "url")
  | none => .ok none

/-- Model of `app` (src/cli/app.rs lines 64-179): resolve every option
in source order, apply the license gate, and hand the resolved options
to `tangram_app::run`.  `.ok opts` means `tangram_app::run(opts)` is
invoked; `.error e` means the process fails (or panics) first. -/
def app (ext : Ext) (debug : Bool) (config : Option AppConfig) :
    Except AppError Options :=
  let auth := authOf config
  let cookie_domain := cookieDomainOf config
  match storageOf ext config with
  | .error e => .error e
  | .ok storage =>
    match databaseOf ext config with
    | .error e => .error e
    | .ok database =>
      match hostOf ext config with
      | .error e => .error e
      | .ok host =>
        match portOf ext config with
        | .error e => .error e
        | .ok port =>
          match licenseVerifiedOf ext config with
          | .error e => .error e
          | .ok license_verified =>
            match gate debug auth license_verified with
            | .error e => .error e
            | .ok _ =>
              let smtp := smtpOf config
              match urlOf ext config with
              | .error e => .error e
              | .ok url =>
                .ok ⟨auth, cookie_domain, database, host, port, smtp,
                  storage, url⟩

/-- The config requests the auth feature exactly when `auth.enable` is
true (src/cli/app.rs lines 71-80). -/
def authRequested (config : Option AppConfig) : Bool :=
  match config.bind AppConfig.auth with
  | some a => a.enable
  | none => false

/-! ### Shared helper lemmas about `verify_license` -/

/-- Exhaustive case analysis of `verify_license`: the result is `.ok true`
or one of the three error values; no other value (in particular no
`.ok false`) is ever produced. -/
theorem verify_license_result (sha : List Nat → List Nat)
    (v : List Nat → List Nat → Bool) (data : List Nat) :
    verify_license sha v data = .ok true ∨
    verify_license sha v data = .error AppError.invalidLicense ∨
    verify_license sha v data = .error AppError.decodeError ∨
    verify_license sha v data = .error AppError.signatureError := by
  unfold verify_license
  cases hsp : splitColon data with
  | nil => simp
  | cons s0 t =>
    cases t with
    | nil => cases h0 : b64Decode s0 <;> simp [h0]
    | cons s1 t2 =>
      cases h0 : b64Decode s0 with
      | none => simp [h0]
      | some payload =>
        cases h1 : b64Decode s1 with
        | none => simp [h0, h1]
        | some signature =>
          by_cases hb : v (sha payload) signature <;> simp [h0, h1, hb]

/-- A decode failure of the first (payload) segment yields the base64
decode error, whatever follows. -/
theorem verify_license_decode_fst (sha : List Nat → List Nat)
    (v : List Nat → List Nat → Bool) (data s0 : List Nat)
    (rest : List (List Nat)) (hsp : splitColon data = s0 :: rest)
    (h0 : b64Decode s0 = none) :
    verify_license sha v data = .error AppError.decodeError := by
  cases rest with
  | nil => simp only [verify_license, hsp, h0]
  | cons s1 t => simp only [verify_license, hsp, h0]

/-- A decode failure of the second (signature) segment yields the base64
decode error (the payload decode happens first; if it fails too, the
result is the same decode error). -/
theorem verify_license_decode_snd (sha : List Nat → List Nat)
    (v : List Nat → List Nat → Bool) (data s0 s1 : List Nat)
    (rest : List (List Nat)) (hsp : splitColon data = s0 :: s1 :: rest)
    (h1 : b64Decode s1 = none) :
    verify_license sha v data = .error AppError.decodeError := by
  cases h0 : b64Decode s0 with
  | none => simp only [verify_license, hsp, h0]
  | some payload => simp only [verify_license, hsp, h0, h1]

/-- On a two-segment artifact whose segments both decode, `verify_license`
digests the decoded payload only and succeeds exactly when the signature
oracle accepts the decoded signature against that digest. -/
theorem verify_license_two_segments (sha : List Nat → List Nat)
    (v : List Nat → List Nat → Bool) (data s0 s1 payload signature : List Nat)
    (hsp : splitColon data = [s0, s1]) (h0 : b64Decode s0 = some payload)
    (h1 : b64Decode s1 = some signature) :
    verify_license sha v data =
      (if v (sha payload) signature then .ok true
       else .error AppError.signatureError) := by
  simp only [verify_license, hsp, h0, h1]

/-! ### Claim theorems about `verify_license` -/

/-- C2, as stated, is false: an artifact with two delimiter bytes whose
first two segments decode and whose signature the oracle accepts is
accepted, because the code only reads the first two segments of the
split and ignores the rest. -/
theorem extra_delimiter_accepted_cex :
    List.count 58 [65, 65, 58, 65, 65, 58, 65, 65] = 2 ∧
    verify_license (fun l => l) (fun _ _ => true)
      [65, 65, 58, 65, 65, 58, 65, 65] = .ok true :=
  ⟨by decide, by rfl⟩

/-- C2 (amended): an artifact with no delimiter byte is always rejected;
an artifact with two or more delimiter bytes is treated exactly like its
truncation to the first two segments — everything from the second
delimiter on is ignored, so such an artifact is not necessarily
rejected. -/
theorem delimiter_arity_behavior :
    (∀ (sha : List Nat → List Nat) (v : List Nat → List Nat → Bool)
        (data : List Nat), List.count 58 data = 0 →
        ∃ e, verify_license sha v data = .error e) ∧
    (∀ (sha : List Nat → List Nat) (v : List Nat → List Nat → Bool)
        (data : List Nat), 2 ≤ List.count 58 data →
        verify_license sha v data = verify_license sha v (truncTwo data)) := by
  constructor
  · intro sha v data hcnt
    have hlen : (splitColon data).length = 1 := by
      rw [splitColon_length, hcnt]
    cases hsp : splitColon data with
    | nil => exact absurd hsp (splitColon_ne_nil data)
    | cons s0 t =>
      cases t with
      | nil =>
        cases h0 : b64Decode s0 with
        | none => exact ⟨AppError.decodeError, by simp only [verify_license, hsp, h0]⟩
        | some p => exact ⟨AppError.invalidLicense, by simp only [verify_license, hsp, h0]⟩
      | cons s1 t2 => rw [hsp] at hlen; simp at hlen
  · intro sha v data hcnt
    have hlen : 3 ≤ (splitColon data).length := by
      rw [splitColon_length]; omega
    cases hsp : splitColon data with
    | nil => exact absurd hsp (splitColon_ne_nil data)
    | cons s0 t =>
      cases t with
      | nil => rw [hsp] at hlen; simp at hlen
      | cons s1 t2 =>
        cases t2 with
        | nil => rw [hsp] at hlen; simp at hlen
        | cons s2 rest =>
          have h0 : 58 ∉ s0 := mem_splitColon_no_colon data s0
            (by rw [hsp]; exact List.mem_cons_self _ _)
          have h1 : 58 ∉ s1 := mem_splitColon_no_colon data s1
            (by rw [hsp]; exact List.mem_cons_of_mem _ (List.mem_cons_self _ _))
          have htr : truncTwo data = s0 ++ 58 :: s1 := by
            unfold truncTwo; rw [hsp]
          have hsp2 : splitColon (s0 ++ 58 :: s1) = [s0, s1] := by
            rw [splitColon_append_colon s0 s1 h0, splitColon_no_colon s1 h1]
          rw [htr]
          unfold verify_license
          rw [hsp, hsp2]

/-- Witness for C2 (amended) at concrete inputs: a delimiter-free
artifact is rejected, and a three-segment artifact verifies the same as
its two-segment truncation. -/
theorem delimiter_arity_behavior_witness :
    (∃ e, verify_license (fun l => l) (fun _ _ => true) [65, 65] = .error e) ∧
    verify_license (fun l => l) (fun _ _ => true) [65, 65, 58, 65, 65, 58, 66, 66] =
      verify_license (fun l => l) (fun _ _ => true)
        (truncTwo [65, 65, 58, 65, 65, 58, 66, 66]) :=
  ⟨delimiter_arity_behavior.1 (fun l => l) (fun _ _ => true) [65, 65] (by decide),
   delimiter_arity_behavior.2 (fun l => l) (fun _ _ => true)
     [65, 65, 58, 65, 65, 58, 66, 66] (by decide)⟩

/-- C4: on an artifact with exactly one delimiter whose two segments both
base64-decode, the digest is computed over the decoded payload segment
only, the decoded signature segment is checked against that digest, and
the result is `.ok true` exactly when the signature check succeeds and a
rejection error when it fails. -/
theorem digest_and_signature_check :
    ∀ (sha : List Nat → List Nat) (v : List Nat → List Nat → Bool)
      (data s0 s1 payload signature : List Nat),
      List.count 58 data = 1 → splitColon data = [s0, s1] →
      b64Decode s0 = some payload → b64Decode s1 = some signature →
      verify_license sha v data =
        (if v (sha payload) signature then .ok true
         else .error AppError.signatureError) :=
  fun sha v data s0 s1 payload signature _ hsp h0 h1 =>
    verify_license_two_segments sha v data s0 s1 payload signature hsp h0 h1

/-- Witness for C4 at the concrete artifact "AA:AA" with the identity
digest oracle and the accept-all signature oracle. -/
theorem digest_and_signature_check_witness :
    verify_license (fun l => l) (fun _ _ => true) [65, 65, 58, 65, 65] =
      (if (fun (_ _ : List Nat) => true) ((fun (l : List Nat) => l) [0]) [0]
       then .ok true else .error AppError.signatureError) :=
  digest_and_signature_check (fun l => l) (fun _ _ => true)
    [65, 65, 58, 65, 65] [65, 65] [65, 65] [0] [0]
    (by decide) (by rfl) (by rfl) (by rfl)

/-- C5: a base64-decode failure of either the payload segment or the
signature segment rejects the whole artifact with a decode error, never
`.ok true`. -/
theorem segment_decode_failure_rejects :
    (∀ (sha : List Nat → List Nat) (v : List Nat → List Nat → Bool)
        (data s0 : List Nat) (rest : List (List Nat)),
        splitColon data = s0 :: rest → b64Decode s0 = none →
        verify_license sha v data = .error AppError.decodeError) ∧
    (∀ (sha : List Nat → List Nat) (v : List Nat → List Nat → Bool)
        (data s0 s1 : List Nat) (rest : List (List Nat)),
        splitColon data = s0 :: s1 :: rest → b64Decode s1 = none →
        verify_license sha v data = .error AppError.decodeError) :=
  ⟨verify_license_decode_fst, verify_license_decode_snd⟩

/-- Witness for C5 at concrete artifacts "!:AA" (payload segment not
base64) and "AA:!" (signature segment not base64). -/
theorem segment_decode_failure_rejects_witness :
    verify_license (fun l => l) (fun _ _ => true) [33, 58, 65, 65] =
      .error AppError.decodeError ∧
    verify_license (fun l => l) (fun _ _ => true) [65, 65, 58, 33] =
      .error AppError.decodeError :=
  ⟨segment_decode_failure_rejects.1 (fun l => l) (fun _ _ => true)
     [33, 58, 65, 65] [33] [[65, 65]] (by rfl) (by rfl),
   segment_decode_failure_rejects.2 (fun l => l) (fun _ _ => true)
     [65, 65, 58, 33] [65, 65] [33] [] (by rfl) (by rfl)⟩

/-- C6: `verify_license` is total on the artifact bytes — for every
possible content it returns either the single success value or one of
the three rejection errors; the embedding has no partial operation on
the artifact, matching the source, whose only unwraps are on the
embedded constant key. -/
theorem verify_license_total :
    ∀ (sha : List Nat → List Nat) (v : List Nat → List Nat → Bool)
      (data : List Nat),
      verify_license sha v data = .ok true ∨
      verify_license sha v data = .error AppError.invalidLicense ∨
      verify_license sha v data = .error AppError.decodeError ∨
      verify_license sha v data = .error AppError.signatureError :=
  verify_license_result

/-- C9: `verify_license` never returns `Ok(false)`: its only success
value is `.ok true`, every rejection being an error; consequently the
caller's `license_verified` value (computed by `licenseVerifiedOf`,
src/cli/app.rs lines 136-142) is never `Some(false)` when it is computed
at all, so the `Some(false)` arm of the gate is unreachable. -/
theorem verify_license_never_ok_false :
    (∀ (sha : List Nat → List Nat) (v : List Nat → List Nat → Bool)
        (data : List Nat), verify_license sha v data ≠ .ok false) ∧
    (∀ (ext : Ext) (config : Option AppConfig) (r : Option Bool),
        licenseVerifiedOf ext config = .ok r → r ≠ some false) := by
  constructor
  · intro sha v data h
    rcases verify_license_result sha v data with h1 | h1 | h1 | h1 <;>
      rw [h1] at h <;> simp at h
  · intro ext config r h
    unfold licenseVerifiedOf at h
    cases hl : config.bind AppConfig.license with
    | none =>
      simp only [hl] at h
      injection h with h
      subst h
      simp
    | some p =>
      simp only [hl] at h
      cases hr : ext.readFile p with
      | none => simp only [hr] at h; exact absurd h (by simp)
      | some data =>
        simp only [hr] at h
        rcases verify_license_result ext.sha256 ext.rsaVerify data
          with h1 | h1 | h1 | h1 <;> simp only [h1] at h
        · injection h with h
          subst h
          simp
        · exact absurd h (by simp)
        · exact absurd h (by simp)
        · exact absurd h (by simp)

/-- Witness for C9 at a concrete configuration with no license path: the
computed outcome is `none`, which is not `Some(false)`. -/
theorem verify_license_never_ok_false_witness :
    (none : Option Bool) ≠ some false :=
  verify_license_never_ok_false.2
    { cacheDir := none, dataDir := none, createDirAll := fun _ => false,
      readFile := fun _ => none, envHost := none, envPort := none,
      parseHost := fun _ => none, parseUrl := fun _ => none,
      sha256 := fun l => l, rsaVerify := fun _ _ => false }
    none none (by rfl)

/-- C10: a byte outside the base64 alphabet (and not the pad byte 61,
which valid base64 may carry as trailing padding) occurring in the
payload segment or in the signature segment makes `verify_license`
reject with a decode error — whitespace is never tolerated; in
particular, appending a newline (byte 10) to the signature segment of an
artifact that verifies successfully makes it rejected. -/
theorem invalid_byte_rejects :
    (∀ (sha : List Nat → List Nat) (v : List Nat → List Nat → Bool)
        (data s0 : List Nat) (rest : List (List Nat)) (x : Nat),
        splitColon data = s0 :: rest → x ∈ s0 → b64Val x = none → x ≠ 61 →
        verify_license sha v data = .error AppError.decodeError) ∧
    (∀ (sha : List Nat → List Nat) (v : List Nat → List Nat → Bool)
        (data s0 s1 : List Nat) (rest : List (List Nat)) (x : Nat),
        splitColon data = s0 :: s1 :: rest → x ∈ s1 → b64Val x = none →
        x ≠ 61 → verify_license sha v data = .error AppError.decodeError) ∧
    (∀ (sha : List Nat → List Nat) (v : List Nat → List Nat → Bool)
        (data t0 t1 : List Nat), splitColon data = [t0, t1] →
        verify_license sha v data = .ok true →
        verify_license sha v (data ++ [10]) = .error AppError.decodeError) := by
  refine ⟨?_, ?_, ?_⟩
  · intro sha v data s0 rest x hsp hx hv h61
    exact verify_license_decode_fst sha v data s0 rest hsp
      (b64Decode_eq_none_of_invalid x hv h61 s0 hx)
  · intro sha v data s0 s1 rest x hsp hx hv h61
    exact verify_license_decode_snd sha v data s0 s1 rest hsp
      (b64Decode_eq_none_of_invalid x hv h61 s1 hx)
  · intro sha v data t0 t1 hsp _
    have h1 : 58 ∉ t1 := mem_splitColon_no_colon data t1
      (by rw [hsp]; exact List.mem_cons_of_mem _ (List.mem_cons_self _ _))
    have hdata : data = t0 ++ 58 :: t1 := by
      have hj := joinColon_splitColon data
      rw [hsp] at hj
      simpa [joinColon] using hj.symm
    have h0 : 58 ∉ t0 := mem_splitColon_no_colon data t0
      (by rw [hsp]; exact List.mem_cons_self _ _)
    have h1' : 58 ∉ t1 ++ [10] := by
      intro hm
      rcases List.mem_append.mp hm with hm | hm
      · exact h1 hm
      · simp at hm
    have hsp2 : splitColon (data ++ [10]) = [t0, t1 ++ [10]] := by
      have happ : data ++ [10] = t0 ++ 58 :: (t1 ++ [10]) := by
        rw [hdata]; simp
      rw [happ, splitColon_append_colon t0 (t1 ++ [10]) h0,
        splitColon_no_colon (t1 ++ [10]) h1']
    exact verify_license_decode_snd sha v (data ++ [10]) t0 (t1 ++ [10]) []
      hsp2 (b64Decode_eq_none_of_invalid 10 (by decide) (by decide)
        (t1 ++ [10]) (by simp))

/-- Witness for C10: the artifact "AA:AA" verifies under the accept-all
oracle, and the same artifact with a trailing newline is rejected with a
decode error. -/
theorem invalid_byte_rejects_witness :
    verify_license (fun l => l) (fun _ _ => true) ([65, 65, 58, 65, 65] ++ [10]) =
      .error AppError.decodeError :=
  invalid_byte_rejects.2.2 (fun l => l) (fun _ _ => true)
    [65, 65, 58, 65, 65] [65, 65] [65, 65] (by rfl) (by rfl)

/-! ### Shared helper lemmas about `app` -/

/-- Destructuring a successful run of `app`: every resolution step
succeeded, the gate passed, and the returned options are assembled
field-by-field from the per-block resolvers, with the auth capability
being exactly `authOf config`. -/
theorem app_eq_ok {ext : Ext} {debug : Bool} {config : Option AppConfig}
    {opts : Options} (h : app ext debug config = .ok opts) :
    ∃ storage database host port lv url,
      storageOf ext config = .ok storage ∧
      databaseOf ext config = .ok database ∧
      hostOf ext config = .ok host ∧
      portOf ext config = .ok port ∧
      licenseVerifiedOf ext config = .ok lv ∧
      gate debug (authOf config) lv = .ok () ∧
      urlOf ext config = .ok url ∧
      opts = ⟨authOf config, cookieDomainOf config, database, host, port,
        smtpOf config, storage, url⟩ := by
  simp only [app] at h
  split at h
  · exact absurd h (by simp)
  rename_i storage h1
  split at h
  · exact absurd h (by simp)
  rename_i database h2
  split at h
  · exact absurd h (by simp)
  rename_i host h3
  split at h
  · exact absurd h (by simp)
  rename_i port h4
  split at h
  · exact absurd h (by simp)
  rename_i lv h5
  split at h
  · exact absurd h (by simp)
  rename_i u h6
  split at h
  · exact absurd h (by simp)
  rename_i url h7
  cases u
  injection h with h
  exact ⟨storage, database, host, port, lv, url, h1, h2, h3, h4, h5, h6, h7,
    h.symm⟩

/-- When the config does not request auth, no auth capability is
resolved. -/
theorem authOf_eq_none {config : Option AppConfig}
    (h : authRequested config = false) : authOf config = none := by
  unfold authOf
  unfold authRequested at h
  cases hc : config.bind AppConfig.auth with
  | none => simp
  | some a =>
    simp only [hc] at h ⊢
    simp [h]

/-- When the config requests auth, the resolved auth capability is
present. -/
theorem authOf_isSome {config : Option AppConfig}
    (h : authRequested config = true) : (authOf config).isSome = true := by
  unfold authOf
  unfold authRequested at h
  cases hc : config.bind AppConfig.auth with
  | none => simp only [hc] at h; exact absurd h (by simp)
  | some a =>
    simp only [hc] at h ⊢
    simp [h]

/-- With auth absent the gate always passes, whatever the build mode and
the verification outcome. -/
theorem gate_none_auth (debug : Bool) (lv : Option Bool) :
    gate debug none lv = .ok () := by
  simp [gate]

/-- In a production build (no `debug_assertions`), a passed gate with
auth present means the license verification outcome was `Some(true)`. -/
theorem gate_prod_passed {auth : Option AuthOptions} {lv : Option Bool}
    (hg : gate false auth lv = .ok ()) (ha : auth.isSome = true) :
    lv = some true := by
  cases lv with
  | none => unfold gate at hg; rw [ha] at hg; simp at hg
  | some b =>
    cases b with
    | false => unfold gate at hg; rw [ha] at hg; simp at hg
    | true => rfl

/-- In a debug build the gate tolerates a missing license, whatever the
auth capability: the permissive exception of src/cli/app.rs lines
146-147. -/
theorem gate_debug_none (auth : Option AuthOptions) :
    gate true auth none = .ok () := by
  cases h : auth.isSome <;> simp [gate, h]

/-- Without a configured license path no verification is attempted. -/
theorem licenseVerifiedOf_no_path {ext : Ext} {config : Option AppConfig}
    (h : config.bind AppConfig.license = none) :
    licenseVerifiedOf ext config = .ok none := by
  unfold licenseVerifiedOf
  simp only [h]

/-- A `Some(true)` verification outcome pins down its provenance: a
license path was configured, the file was read, and `verify_license`
succeeded on its bytes. -/
theorem licenseVerifiedOf_some_true {ext : Ext} {config : Option AppConfig}
    (h : licenseVerifiedOf ext config = .ok (some true)) :
    ∃ p data, config.bind AppConfig.license = some p ∧
      ext.readFile p = some data ∧
      verify_license ext.sha256 ext.rsaVerify data = .ok true := by
  unfold licenseVerifiedOf at h
  cases hl : config.bind AppConfig.license with
  | none => simp only [hl] at h; exact absurd h (by simp)
  | some p =>
    simp only [hl] at h
    cases hr : ext.readFile p with
    | none => simp only [hr] at h; exact absurd h (by simp)
    | some data =>
      simp only [hr] at h
      cases hv : verify_license ext.sha256 ext.rsaVerify data with
      | error e => simp only [hv] at h; exact absurd h (by simp)
      | ok b =>
        simp only [hv] at h
        injection h with h
        injection h with h
        exact ⟨p, data, rfl, hr, by rw [hv, h]⟩

/-- A failed verification propagates out of the license block as that
same error, before the gate is consulted. -/
theorem licenseVerifiedOf_error {ext : Ext} {config : Option AppConfig}
    {p : String} {data : List Nat} {e : AppError}
    (hl : config.bind AppConfig.license = some p)
    (hr : ext.readFile p = some data)
    (hv : verify_license ext.sha256 ext.rsaVerify data = .error e) :
    licenseVerifiedOf ext config = .error e := by
  unfold licenseVerifiedOf
  simp only [hl, hr, hv]

/-! ### Concrete fixtures shared by witnesses and counterexamples -/

/-- An empty parsed config file (every field absent). -/
def cfgEmpty : AppConfig :=
  { auth := none, cookie_domain := none, database := none, host := none,
    license := none, port := none, smtp := none, storage := none,
    url := none }

/-- A fully concrete external world: both user directories resolve,
directory creation succeeds, every file read returns the bytes of the
artifact "AA:AA", no environment overrides, identity-style parsers, the
identity digest oracle and the accept-all signature oracle. -/
def extOk : Ext :=
  { cacheDir := some "/c", dataDir := some "/d",
    createDirAll := fun _ => true,
    readFile := fun _ => some [65, 65, 58, 65, 65],
    envHost := none, envPort := none,
    parseHost := fun s => some s, parseUrl := fun s => some s,
    sha256 := fun l => l, rsaVerify := fun _ _ => true }

/-- Auth enabled and a license path configured. -/
def cfgAuthLic : Option AppConfig :=
  some { cfgEmpty with auth := some ⟨true⟩, license := some "lic" }

/-- Auth explicitly disabled but a license path configured. -/
def cfgAuthOffLic : Option AppConfig :=
  some { cfgEmpty with auth := some ⟨false⟩, license := some "lic" }

/-- No auth section, a license path configured. -/
def cfgLicOnly : Option AppConfig :=
  some { cfgEmpty with license := some "lic" }

/-- Host and port set in the config file, no license. -/
def cfgHostPort : Option AppConfig :=
  some { cfgEmpty with host := some "10.0.0.1", port := some 3000 }

/-- As `extOk` but the license file reads as empty bytes. -/
def extEmptyFile : Ext := { extOk with readFile := fun _ => some [] }

/-- As `extOk` but the HOST environment variable is set. -/
def extHostEnv : Ext := { extOk with envHost := some "127.0.0.1" }

/-- As `extOk` but neither user directory can be determined. -/
def extNoDirs : Ext := { extOk with cacheDir := none, dataDir := none }

/-- The options resolved from `extOk` and `cfgAuthLic`. -/
def optsOk : Options :=
  { auth := some ⟨⟩, cookie_domain := none,
    database := { max_connections := none,
                  url := "sqlite:/d/tangram/db/tangram.db" },
    host := "0.0.0.0", port := 8080, smtp := none,
    storage := StorageOptions.localS { path := "/d/tangram/data" },
    url := none }

/-- The options resolved from `extHostEnv` and `cfgHostPort`. -/
def optsHostPort : Options :=
  { auth := none, cookie_domain := none,
    database := { max_connections := none,
                  url := "sqlite:/d/tangram/db/tangram.db" },
    host := "127.0.0.1", port := 3000, smtp := none,
    storage := StorageOptions.localS { path := "/d/tangram/data" },
    url := none }

/-! ### App-level claim theorems -/

/-- C1: fail-closed gating.  In a production build (`debug = false`), a
run that reaches `tangram_app::run` with the auth capability present
must have had a configured license path whose bytes `verify_license`
accepted; if auth was requested and no license path is configured, or
the configured license fails verification, `app` errors out before
`run`; and the permissive missing-license exception is exactly the
compile-time `debug` switch of the gate, not any runtime datum. -/
theorem license_gate_fail_closed :
    (∀ (ext : Ext) (config : Option AppConfig) (opts : Options),
        app ext false config = .ok opts → opts.auth.isSome = true →
        ∃ p data, config.bind AppConfig.license = some p ∧
          ext.readFile p = some data ∧
          verify_license ext.sha256 ext.rsaVerify data = .ok true) ∧
    (∀ (ext : Ext) (config : Option AppConfig),
        authRequested config = true → config.bind AppConfig.license = none →
        ∀ opts : Options, app ext false config ≠ .ok opts) ∧
    (∀ (ext : Ext) (config : Option AppConfig) (p : String)
        (data : List Nat) (e : AppError),
        config.bind AppConfig.license = some p → ext.readFile p = some data →
        verify_license ext.sha256 ext.rsaVerify data = .error e →
        ∀ (debug : Bool) (opts : Options), app ext debug config ≠ .ok opts) ∧
    (∀ auth : Option AuthOptions, gate true auth none = .ok ()) := by
  refine ⟨?_, ?_, ?_, gate_debug_none⟩
  · intro ext config opts h hauth
    obtain ⟨storage, database, host, port, lv, url, _, _, _, _, h5, h6, _,
      heq⟩ := app_eq_ok h
    subst heq
    have hlv : lv = some true := gate_prod_passed h6 hauth
    subst hlv
    exact licenseVerifiedOf_some_true h5
  · intro ext config hreq hlic opts h
    obtain ⟨storage, database, host, port, lv, url, _, _, _, _, h5, h6, _,
      _⟩ := app_eq_ok h
    have hlv : Except.ok (ε := AppError) lv = .ok (none : Option Bool) := by
      rw [← h5, licenseVerifiedOf_no_path hlic]
    injection hlv with hlv
    subst hlv
    have hcontra := gate_prod_passed h6 (authOf_isSome hreq)
    simp at hcontra
  · intro ext config p data e hl hr hv debug opts h
    obtain ⟨storage, database, host, port, lv, url, _, _, _, _, h5, _, _,
      _⟩ := app_eq_ok h
    have hcontra : Except.ok (ε := AppError) lv = .error e := by
      rw [← h5, licenseVerifiedOf_error hl hr hv]
    exact absurd hcontra (by simp)

/-- Witness for C1 at the concrete happy path: `extOk` with `cfgAuthLic`
resolves to `optsOk` whose auth capability is present, so a license path,
its bytes, and a successful verification exist. -/
theorem license_gate_fail_closed_witness :
    ∃ p data, cfgAuthLic.bind AppConfig.license = some p ∧
      extOk.readFile p = some data ∧
      verify_license extOk.sha256 extOk.rsaVerify data = .ok true :=
  license_gate_fail_closed.1 extOk cfgAuthLic optsOk (by rfl) (by rfl)

/-- C3, as stated, is false: with auth explicitly disabled but a license
path configured, a license that fails verification (here: an empty file)
still aborts startup, because the verification error propagates out of
`app` (src/cli/app.rs line 139) before the gate is ever consulted — the
verification outcome is not irrelevant to startup. -/
theorem auth_disabled_verification_fatal_cex :
    authRequested cfgAuthOffLic = false ∧
    app extEmptyFile false cfgAuthOffLic = .error AppError.invalidLicense :=
  ⟨by rfl, by rfl⟩

/-- C3 (amended): if auth is not requested, the resolved options carry no
auth capability and the gate never rejects — the outcome of `app` is
independent of the build mode; however, a configured license that fails
verification still aborts startup, since that error propagates before
the gate. -/
theorem auth_not_requested_gate_irrelevant :
    ∀ (ext : Ext) (config : Option AppConfig),
      authRequested config = false →
      (∀ (debug : Bool) (opts : Options),
          app ext debug config = .ok opts → opts.auth = none) ∧
      (∀ d1 d2 : Bool, app ext d1 config = app ext d2 config) := by
  intro ext config hreq
  have hauth := authOf_eq_none hreq
  constructor
  · intro debug opts h
    obtain ⟨storage, database, host, port, lv, url, _, _, _, _, _, _, _,
      heq⟩ := app_eq_ok h
    subst heq
    exact hauth
  · intro d1 d2
    simp only [app, hauth, gate_none_auth]

/-- Witness for C3 (amended): with only a license configured and no auth
section, the build mode does not change the outcome of `app`. -/
theorem auth_not_requested_gate_irrelevant_witness :
    app extOk true cfgLicOnly = app extOk false cfgLicOnly :=
  (auth_not_requested_gate_irrelevant extOk cfgLicOnly (by rfl)).2 true false

/-- The bind address the spec calls for: the environment variable when
set (and parseable), else the config file's host, else the default
0.0.0.0.  Stated from the spec's words for comparison with the code. -/
def specResolvedHost (ext : Ext) (config : Option AppConfig) :
    Option String :=
  match ext.envHost with
  | some s => ext.parseHost s
  | none => some ((config.bind AppConfig.host).getD "0.0.0.0")

/-- The bind port the spec calls for: the environment variable when set
(and parseable), else the config file's port, else the default 8080.
Stated from the spec's words for comparison with the code. -/
def specResolvedPort (ext : Ext) (config : Option AppConfig) : Option Nat :=
  match ext.envPort with
  | some s => parsePort s
  | none => some ((config.bind AppConfig.port).getD 8080)

/-- The host the code resolves refines the spec's precedence. -/
theorem hostOf_spec {ext : Ext} {config : Option AppConfig} {h : String}
    (hh : hostOf ext config = .ok h) :
    specResolvedHost ext config = some h := by
  unfold hostOf at hh
  unfold specResolvedHost
  cases he : ext.envHost with
  | some s =>
    simp only [he] at hh ⊢
    cases hp : ext.parseHost s with
    | some h2 => simp only [hp] at hh ⊢; injection hh with hh; rw [hh]
    | none => simp only [hp] at hh; exact absurd hh (by simp)
  | none =>
    simp only [he] at hh ⊢
    cases hc : config.bind AppConfig.host with
    | some h2 =>
      simp only [hc, Option.getD_some] at hh ⊢
      injection hh with hh
      rw [hh]
    | none =>
      simp only [hc, Option.getD_none] at hh ⊢
      injection hh with hh
      rw [hh]

/-- The port the code resolves refines the spec's precedence. -/
theorem portOf_spec {ext : Ext} {config : Option AppConfig} {p : Nat}
    (hp : portOf ext config = .ok p) :
    specResolvedPort ext config = some p := by
  unfold portOf at hp
  unfold specResolvedPort
  cases he : ext.envPort with
  | some s =>
    simp only [he] at hp ⊢
    cases hq : parsePort s with
    | some p2 => simp only [hq] at hp ⊢; injection hp with hp; rw [hp]
    | none => simp only [hq] at hp; exact absurd hp (by simp)
  | none =>
    simp only [he] at hp ⊢
    cases hc : config.bind AppConfig.port with
    | some p2 =>
      simp only [hc, Option.getD_some] at hp ⊢
      injection hp with hp
      rw [hp]
    | none =>
      simp only [hc, Option.getD_none] at hp ⊢
      injection hp with hp
      rw [hp]

/-- C7: every successful run resolves the bind address and port by the
precedence environment variable → config file → default (0.0.0.0 and
8080), each field independently of the other. -/
theorem host_port_precedence :
    ∀ (ext : Ext) (debug : Bool) (config : Option AppConfig)
      (opts : Options), app ext debug config = .ok opts →
      specResolvedHost ext config = some opts.host ∧
      specResolvedPort ext config = some opts.port := by
  intro ext debug config opts h
  obtain ⟨storage, database, host, port, lv, url, _, _, h3, h4, _, _, _,
    heq⟩ := app_eq_ok h
  subst heq
  exact ⟨hostOf_spec h3, portOf_spec h4⟩

/-- Witness for C7 at the spec's own scenario: HOST=127.0.0.1 in the
environment beats host 10.0.0.1 in the config file, and the config
file's port 3000 beats the default. -/
theorem host_port_precedence_witness :
    specResolvedHost extHostEnv cfgHostPort = some optsHostPort.host ∧
    specResolvedPort extHostEnv cfgHostPort = some optsHostPort.port :=
  host_port_precedence extHostEnv false cfgHostPort optsHostPort (by rfl)

/-- C8, as stated, is false for the default-database-URL helper: when
the user data directory cannot be determined, `default_database_url`
does not return an IoError — it crashes via `unwrap()` on the failed
`data_path()` (src/cli/app.rs line 212), modelled as `panicked`. -/
theorem default_database_url_panics_cex :
    default_database_url extNoDirs = .error AppError.panicked := by rfl

/-- C8 (amended): `cache_path` and `data_path` fail by returning an
IoError when the platform directory cannot be determined or creation
fails, and return the created path on success (`create_dir_all` treats
an already-existing directory as success, modelled by the `createDirAll`
oracle); `default_database_url`, by contrast, never returns an IoError —
its failures are crashes (`unwrap` panics). -/
theorem dir_helpers_error_behavior :
    ∀ ext : Ext,
      (∀ e, cache_path ext = .error e → ∃ m, e = AppError.ioError m) ∧
      (∀ e, data_path ext = .error e → ∃ m, e = AppError.ioError m) ∧
      (∀ e, default_database_url ext = .error e → e = AppError.panicked) ∧
      (∀ d, ext.cacheDir = some d →
          ext.createDirAll (d ++ "/tangram") = true →
          cache_path ext = .ok (d ++ "/tangram")) ∧
      (∀ d, ext.dataDir = some d →
          ext.createDirAll (d ++ "/tangram") = true →
          data_path ext = .ok (d ++ "/tangram")) := by
  intro ext
  refine ⟨?_, ?_, ?_, ?_, ?_⟩
  · intro e he
    unfold cache_path at he
    cases hc : ext.cacheDir with
    | none =>
      simp only [hc] at he
      injection he with he
      exact ⟨_, he.symm⟩
    | some d =>
      simp only [hc] at he
      by_cases hcd : ext.createDirAll (d ++ "/tangram") = true
      · rw [if_pos hcd] at he; exact absurd he (by simp)
      · rw [if_neg hcd] at he
        injection he with he
        exact ⟨_, he.symm⟩
  · intro e he
    unfold data_path at he
    cases hc : ext.dataDir with
    | none =>
      simp only [hc] at he
      injection he with he
      exact ⟨_, he.symm⟩
    | some d =>
      simp only [hc] at he
      by_cases hcd : ext.createDirAll (d ++ "/tangram") = true
      · rw [if_pos hcd] at he; exact absurd he (by simp)
      · rw [if_neg hcd] at he
        injection he with he
        exact ⟨_, he.symm⟩
  · intro e he
    unfold default_database_url at he
    cases hd : data_path ext with
    | error e2 =>
      simp only [hd] at he
      injection he with he
      exact he.symm
    | ok d =>
      simp only [hd] at he
      by_cases hcd : ext.createDirAll (d ++ "/db") = true
      · rw [if_pos hcd] at he; exact absurd he (by simp)
      · rw [if_neg hcd] at he
        injection he with he
        exact he.symm
  · intro d hd hcd
    unfold cache_path
    simp only [hd]
    rw [if_pos hcd]
  · intro d hd hcd
    unfold data_path
    simp only [hd]
    rw [if_pos hcd]

/-- Witness for C8 (amended) at a concrete world with no resolvable
directories: the cache helper's failure is an IoError. -/
theorem dir_helpers_error_behavior_witness :
    ∃ m, AppError.ioError "failed to find user cache directory" =
      AppError.ioError m :=
  (dir_helpers_error_behavior extNoDirs).1
    (AppError.ioError "failed to find user cache directory") (by rfl)

end Tangram
